import Mathlib

/-!
Shallow embedding of the usage/budget tracker of the Google-maps-prospect
repository.  Two implementations exist in the source and are embedded side by
side:

* `AppPy`: the JSON-file tracker `UsageTracker` in `app.py` (in-memory
  counters `requests_this_month` / `cost_this_month`, persisted to a JSON
  file holding `month`, `requests`, `cost`).
* `Sql`: the SQLite tracker `UsageTracker` in `usage_tracker.py` (tables
  `monthly_usage` and `request_log`; the database is modelled as explicit
  lists of rows, SQL statements as list operations).

Modelling conventions: Python floats are exact rationals (ℚ); Python
`int(x)` truncation of a non-negative value is `Int.floor`; Python
`round(x, 2)` (round-half-to-even) is modelled with Mathlib `round`
(round-half-up) — the two differ only at exact half-values and no statement
proved below depends on the tie-breaking rule; wall-clock time
(`datetime.now()` / `datetime.utcnow()`) is an explicit parameter (a month
key string, or a year/month pair); fallible file and database reads are
`Except String` values.
-/

namespace AppPy

/-- Configuration constants of `UsageTracker.__init__` in `app.py`
(defaults 20000 requests, 180.0 euros, 0.009 euros per request). -/
structure Config where
  max_requests_per_month : ℕ
  max_cost_per_month : ℚ
  cost_per_request : ℚ
deriving DecidableEq

/-- In-memory counters `requests_this_month` / `cost_this_month`. -/
structure TrackerState where
  requests_this_month : ℕ
  cost_this_month : ℚ
deriving DecidableEq

/-- Contents of the JSON file `usage_log.json` written by `save_usage`. -/
structure StoredUsage where
  month : String
  requests : ℕ
  cost : ℚ
deriving DecidableEq

/-- `UsageTracker.load_usage`.  The file argument is `none` when
`usage_log.json` does not exist, `some (Except.error e)` when opening or
parsing it raises (the `except` branch of the source), and
`some (Except.ok d)` when it parses.  `month_key` is the current wall-clock
month (`datetime.now().strftime("%Y-%m")`).  Counters start at the zeros set
in `__init__` and are only overwritten when the stored month matches.
Returns the resulting state together with the list of logged messages
(float formatting of the source log text is rendered via `toString`). -/
def load_usage (file : Option (Except String StoredUsage)) (month_key : String) :
    TrackerState × List String :=
  match file with
  | none => (⟨0, 0⟩, [])
  | some (Except.error e) => (⟨0, 0⟩, ["Error loading usage: " ++ e])
  | some (Except.ok d) =>
      if month_key = d.month then
        (⟨d.requests, d.cost⟩,
         ["Usage loaded: " ++ toString d.requests ++ " requests, " ++
          toString d.cost ++ " euros"])
      else
        (⟨0, 0⟩, ["New month detected - resetting tracker"])

/-- `UsageTracker.save_usage`: the JSON object written to `usage_log.json`. -/
def save_usage (s : TrackerState) (month_key : String) : StoredUsage :=
  ⟨month_key, s.requests_this_month, s.cost_this_month⟩

/-- `UsageTracker.add_request`: increment the request counter by 1 and the
cost counter by `cost_per_request` (then `save_usage`, modelled separately). -/
def add_request (cfg : Config) (s : TrackerState) : TrackerState :=
  ⟨s.requests_this_month + 1, s.cost_this_month + cfg.cost_per_request⟩

/-- `UsageTracker.can_make_request`: `requests_this_month <
max_requests_per_month and cost_this_month < max_cost_per_month`.
(The source also logs a warning when blocked; no reason string is
returned, only this boolean.) -/
def can_make_request (cfg : Config) (s : TrackerState) : Bool :=
  decide (s.requests_this_month < cfg.max_requests_per_month) &&
  decide (s.cost_this_month < cfg.max_cost_per_month)

/-- `UsageTracker.get_usage_percentage`: the maximum of the request share
and the cost share of the budget, each scaled to percent, with a guard for
zero limits. -/
def get_usage_percentage (cfg : Config) (s : TrackerState) : ℚ :=
  let requests_pct : ℚ :=
    if cfg.max_requests_per_month > 0 then
      ((s.requests_this_month : ℚ) / (cfg.max_requests_per_month : ℚ)) * 100
    else 0
  let cost_pct : ℚ :=
    if cfg.max_cost_per_month > 0 then
      (s.cost_this_month / cfg.max_cost_per_month) * 100
    else 0
  max requests_pct cost_pct

end AppPy

namespace Sql

/-- Configuration constants of `UsageTracker.__init__` in `usage_tracker.py`
(defaults 20000 requests, 180.0 USD, 0.009 USD per request). -/
structure Config where
  max_requests_per_month : ℕ
  max_cost_per_month : ℚ
  cost_per_request : ℚ
deriving DecidableEq

/-- A row of the `monthly_usage` table (`requests` and `cost` have SQL
defaults 0 and 0.0; the `id` and `created_at` columns play no role in any
operation and are omitted). -/
structure MonthRow where
  year : ℕ
  month : ℕ
  requests : ℕ
  cost : ℚ
deriving DecidableEq

/-- A row of the `request_log` table (`cost` defaults to 0.0 and `status`
to the string "success"; `timestamp` and `id` are omitted as no claim
depends on them; nullable TEXT columns are `Option String`). -/
structure LogRow where
  endpoint : Option String
  query_type : Option String
  cost : ℚ
  status : String
  notes : Option String
deriving DecidableEq

/-- The SQLite database `usage.db`: the two tables created by
`UsageTracker._init_db`, each as a list of rows in insertion order. -/
structure Db where
  monthly_usage : List MonthRow
  request_log : List LogRow
deriving DecidableEq

/-- The freshly created database produced by `_init_db` (both tables empty). -/
def emptyDb : Db := ⟨[], []⟩

/-- `SELECT ... FROM monthly_usage WHERE year = ? AND month = ?`. -/
def find_month (rows : List MonthRow) (y m : ℕ) : Option MonthRow :=
  rows.find? fun r => r.year == y && r.month == m

/-- `UsageTracker._ensure_month_exists`: `INSERT OR IGNORE INTO
monthly_usage (year, month) VALUES (?, ?)` — appends a row with the schema
defaults (0 requests, 0.0 cost) unless a row for `(y, m)` already exists. -/
def ensure_month_exists (db : Db) (y m : ℕ) : Db :=
  if (find_month db.monthly_usage y m).isSome then db
  else { db with monthly_usage := db.monthly_usage ++ [⟨y, m, 0, 0⟩] }

/-- Python `round(q, 2)` on an exact rational (see the module doc comment
for the tie-breaking caveat). -/
def round2 (q : ℚ) : ℚ := ((round (q * 100) : ℤ) : ℚ) / 100

/-- Python `f"{month:02d}"`: two-digit zero padding. -/
def pad2 (n : ℕ) : String := if n < 10 then "0" ++ toString n else toString n

/-- Python `f"{year}-{month:02d}"`. -/
def month_str (y m : ℕ) : String := toString y ++ "-" ++ pad2 m

/-- The dictionary returned by `UsageTracker.get_current_usage`.
`requests_remaining` is ℤ because Python computes `max_requests_per_month -
requests_used` in unbounded signed arithmetic before clamping with `max`. -/
structure Usage where
  requests : ℕ
  cost : ℚ
  requests_remaining : ℤ
  cost_remaining : ℚ
  percent_used : ℤ
  status : String
  month : String
  max_requests : ℕ
  max_cost : ℚ
deriving DecidableEq

/-- The request counter read back by `get_current_usage`
(`result[0] if result else 0`). -/
def month_requests (db : Db) (y m : ℕ) : ℕ :=
  match find_month db.monthly_usage y m with
  | some r => r.requests
  | none => 0

/-- The cost counter read back by `get_current_usage`
(`result[1] if result else 0.0`). -/
def month_cost (db : Db) (y m : ℕ) : ℚ :=
  match find_month db.monthly_usage y m with
  | some r => r.cost
  | none => 0

/-- `UsageTracker.get_current_usage`: ensure the current month row exists,
read it back, and derive the usage snapshot.  `percent_used` is
`int((requests_used / max_requests_per_month) * 100)` — it is computed from
the request counter only, and `int()` truncation of a non-negative value is
`Int.floor`.  Returns the (possibly grown) database together with the
snapshot, since `_ensure_month_exists` writes. -/
def get_current_usage (cfg : Config) (db : Db) (y m : ℕ) : Db × Usage :=
  let db' := ensure_month_exists db y m
  let requests_used : ℕ := month_requests db' y m
  let cost_used : ℚ := month_cost db' y m
  let requests_remaining : ℤ :=
    max 0 ((cfg.max_requests_per_month : ℤ) - (requests_used : ℤ))
  let cost_remaining : ℚ := max 0 (cfg.max_cost_per_month - cost_used)
  let percent_used : ℤ :=
    if cfg.max_requests_per_month > 0 then
      ⌊((requests_used : ℚ) / (cfg.max_requests_per_month : ℚ)) * 100⌋
    else 0
  let status : String :=
    if percent_used ≥ 100 then "exceeded"
    else if percent_used ≥ 80 then "warning"
    else "ok"
  (db', { requests := requests_used
        , cost := round2 cost_used
        , requests_remaining := requests_remaining
        , cost_remaining := round2 cost_remaining
        , percent_used := percent_used
        , status := status
        , month := month_str y m
        , max_requests := cfg.max_requests_per_month
        , max_cost := cfg.max_cost_per_month })

/-- The rejection message built inside `UsageTracker.can_make_request`
(the four adjacent f-string literals of the source, concatenated). -/
def budget_msg (r : ℕ) (c : ℚ) (maxR : ℕ) : String :=
  "❌ API Budget Exceeded\n\nYou\x27ve used " ++
  (toString r ++ " requests") ++
  (" (" ++ (toString c ++ " USD)")) ++
  (" out of " ++ (toString maxR ++ " allowed")) ++
  ".\n\nPlease wait until next month or upgrade your plan."

/-- `UsageTracker.can_make_request`: returns `(False, message)` when the
usage status is "exceeded" and `(True, "")` otherwise.  The status — hence
the gate — is derived from `percent_used`, which depends only on the
request counter; the cost counter is never consulted.  The database is
returned as well because `get_current_usage` may create the month row. -/
def can_make_request (cfg : Config) (db : Db) (y m : ℕ) :
    Db × (Bool × String) :=
  let (db', usage) := get_current_usage cfg db y m
  if usage.status = "exceeded" then
    (db', (false, budget_msg usage.requests usage.cost cfg.max_requests_per_month))
  else
    (db', (true, ""))

/-- `UsageTracker.can_make_request` seen through a fallible SQLite
connection.  The source module contains no try/except whatsoever, so a
`sqlite3` error raised while reading the database propagates out of
`can_make_request` uncaught; that propagation is the `Except.error` case. -/
def can_make_request_conn (cfg : Config) (conn : Except String Db) (y m : ℕ) :
    Except String (Db × (Bool × String)) :=
  match conn with
  | Except.error e => Except.error e
  | Except.ok db => Except.ok (can_make_request cfg db y m)

/-- Row-level effect of `UPDATE monthly_usage SET requests = requests + 1,
cost = cost + ? WHERE year = ? AND month = ?`: rows matching the WHERE
clause are incremented, all others are untouched. -/
def bump_row (cfg : Config) (y m : ℕ) (r : MonthRow) : MonthRow :=
  if r.year == y && r.month == m then
    { r with requests := r.requests + 1, cost := r.cost + cfg.cost_per_request }
  else r

/-- `UsageTracker.log_request`: ensure the month row exists, append a
detailed `request_log` row (status "success" or "failed" from the flag),
and apply the `UPDATE` (`bump_row`) to the `monthly_usage` table. -/
def log_request (cfg : Config) (db : Db) (y m : ℕ)
    (endpoint query_type : String) (success : Bool) (notes : Option String) :
    Db :=
  let db' := ensure_month_exists db y m
  let st : String := if success then "success" else "failed"
  { monthly_usage := db'.monthly_usage.map (bump_row cfg y m)
  , request_log :=
      db'.request_log ++
        [⟨some endpoint, some query_type, cfg.cost_per_request, st, notes⟩] }

/-- `UsageTracker.log_failed_request`: `INSERT INTO request_log (endpoint,
status, notes) VALUES ("blocked", "blocked", reason)`; the omitted columns
take their schema defaults (`query_type` NULL, `cost` 0.0). -/
def log_failed_request (db : Db) (reason : String) : Db :=
  { db with request_log :=
      db.request_log ++ [⟨some "blocked", none, 0, "blocked", some reason⟩] }

/-- The descending `ORDER BY year DESC, month DESC` order used by
`get_monthly_history`. -/
def hist_le (a b : MonthRow) : Prop :=
  b.year < a.year ∨ (b.year = a.year ∧ b.month ≤ a.month)

instance : DecidableRel hist_le := fun a b => by
  unfold hist_le; exact inferInstance

/-- One element of the list returned by `get_monthly_history`. -/
structure Summary where
  month : String
  requests : ℕ
  cost : ℚ
deriving DecidableEq

/-- `UsageTracker.get_monthly_history`: `SELECT year, month, requests, cost
FROM monthly_usage ORDER BY year DESC, month DESC LIMIT ?`, formatted as
`{"month": f"{year}-{month:02d}", "requests": r, "cost": round(cost, 2)}`. -/
def get_monthly_history (db : Db) (months : ℕ) : List Summary :=
  ((db.monthly_usage.insertionSort hist_le).take months).map fun r =>
    ⟨month_str r.year r.month, r.requests, round2 r.cost⟩

/-- `UsageTracker.reset_month`: `UPDATE monthly_usage SET requests = 0,
cost = 0.0 WHERE year = ? AND month = ?`. -/
def reset_month (db : Db) (y m : ℕ) : Db :=
  { db with monthly_usage :=
      db.monthly_usage.map fun r =>
        if r.year == y && r.month == m then { r with requests := 0, cost := 0 }
        else r }

/-- Databases reachable from a fresh `_init_db` database through the
mutating operations of `usage_tracker.py`.  `get_current_usage`,
`can_make_request`, `get_alert_message` mutate only via
`_ensure_month_exists`, which is the `ensure` step; the read-only queries
(`get_monthly_history`, `get_detailed_log`) do not mutate. -/
inductive Reachable : Db → Prop
  | init : Reachable emptyDb
  | ensure (db : Db) (y m : ℕ) : Reachable db → Reachable (ensure_month_exists db y m)
  | log (cfg : Config) (db : Db) (y m : ℕ) (e q : String) (s : Bool)
      (n : Option String) : Reachable db → Reachable (log_request cfg db y m e q s n)
  | blocked (db : Db) (reason : String) : Reachable db →
      Reachable (log_failed_request db reason)
  | reset (db : Db) (y m : ℕ) : Reachable db → Reachable (reset_month db y m)

/-- At most one `monthly_usage` row per `(year, month)` value — the
`UNIQUE(year, month)` schema constraint, stated about the model. -/
def UniqueMonths (db : Db) : Prop :=
  db.monthly_usage.Pairwise fun a b => ¬(a.year = b.year ∧ a.month = b.month)

/-- A fold of `log_request` over a list of call parameters
`(endpoint, query_type, success, notes)`: a sequence of recorded attempts
within the single period `(y, m)`. -/
def run_log (cfg : Config) (y m : ℕ) (db : Db)
    (calls : List (String × String × Bool × Option String)) : Db :=
  calls.foldl (fun d c => log_request cfg d y m c.1 c.2.1 c.2.2.1 c.2.2.2) db

end Sql

/-! ## Helper lemmas -/

namespace Sql

theorem find_month_some {rows : List MonthRow} {y m : ℕ} {r : MonthRow}
    (h : find_month rows y m = some r) : r.year = y ∧ r.month = m := by
  have hp := List.find?_some h
  simpa [Bool.and_eq_true, beq_iff_eq] using hp

theorem ensure_of_isSome {db : Db} {y m : ℕ}
    (h : (find_month db.monthly_usage y m).isSome) :
    ensure_month_exists db y m = db := by
  simp [ensure_month_exists, h]

theorem ensure_of_none {db : Db} {y m : ℕ}
    (h : find_month db.monthly_usage y m = none) :
    (ensure_month_exists db y m).monthly_usage =
      db.monthly_usage ++ [⟨y, m, 0, 0⟩] := by
  simp [ensure_month_exists, h]

theorem find_month_append_singleton {rows : List MonthRow} {y m a : ℕ} {b : ℚ}
    (h : find_month rows y m = none) :
    find_month (rows ++ [(⟨y, m, a, b⟩ : MonthRow)]) y m =
      some ⟨y, m, a, b⟩ := by
  unfold find_month at h ⊢
  rw [List.find?_append, h]
  simp [List.find?]

theorem find_month_ensure_none {db : Db} {y m : ℕ}
    (h : find_month db.monthly_usage y m = none) :
    find_month (ensure_month_exists db y m).monthly_usage y m =
      some ⟨y, m, 0, 0⟩ := by
  rw [ensure_of_none h]
  exact find_month_append_singleton h

theorem find?_map_of_pred {α : Type} (p : α → Bool) (f : α → α)
    (hp : ∀ a, p (f a) = p a) :
    ∀ l : List α, (l.map f).find? p = (l.find? p).map f := by
  intro l
  induction l with
  | nil => rfl
  | cons a l ih =>
    cases hpa : p a with
    | true =>
      rw [List.map_cons, List.find?_cons_of_pos _ (by rw [hp]; exact hpa),
        List.find?_cons_of_pos _ hpa]
      rfl
    | false =>
      rw [List.map_cons, List.find?_cons_of_neg _ (by simp [hp, hpa]),
        List.find?_cons_of_neg _ (by simp [hpa]), ih]

theorem bump_row_pred (cfg : Config) (y m : ℕ) (r : MonthRow) :
    ((bump_row cfg y m r).year == y && (bump_row cfg y m r).month == m) =
      (r.year == y && r.month == m) := by
  unfold bump_row
  by_cases h : (r.year == y && r.month == m) = true
  · simp [h]
  · simp [h]

theorem log_request_find (cfg : Config) (db : Db) (y m : ℕ)
    (e q : String) (s : Bool) (n : Option String) :
    find_month (log_request cfg db y m e q s n).monthly_usage y m =
      some ⟨y, m, month_requests db y m + 1,
            month_cost db y m + cfg.cost_per_request⟩ := by
  show find_month ((ensure_month_exists db y m).monthly_usage.map
      (bump_row cfg y m)) y m = _
  cases hf : find_month db.monthly_usage y m with
  | none =>
    have hens := find_month_ensure_none hf
    unfold find_month at hens ⊢
    rw [find?_map_of_pred _ _ (bump_row_pred cfg y m), hens]
    simp [month_requests, month_cost, hf, bump_row]
  | some r =>
    obtain ⟨hy, hm⟩ := find_month_some hf
    have hs : (find_month db.monthly_usage y m).isSome := by rw [hf]; rfl
    rw [ensure_of_isSome hs]
    unfold find_month at hf ⊢
    rw [find?_map_of_pred _ _ (bump_row_pred cfg y m), hf]
    simp [month_requests, month_cost, find_month, hf, bump_row, hy, hm]

theorem log_request_log (cfg : Config) (db : Db) (y m : ℕ)
    (e q : String) (s : Bool) (n : Option String) :
    (log_request cfg db y m e q s n).request_log =
      db.request_log ++
        [⟨some e, some q, cfg.cost_per_request,
          if s then "success" else "failed", n⟩] := by
  unfold log_request ensure_month_exists
  by_cases h : (find_month db.monthly_usage y m).isSome <;> simp [h]

theorem run_log_find (cfg : Config) (y m : ℕ) :
    ∀ (calls : List (String × String × Bool × Option String)) (db : Db)
      (k : ℕ) (c : ℚ),
      find_month db.monthly_usage y m = some ⟨y, m, k, c⟩ →
      find_month (run_log cfg y m db calls).monthly_usage y m =
        some ⟨y, m, k + calls.length,
              c + calls.length * cfg.cost_per_request⟩ := by
  intro calls
  induction calls with
  | nil =>
    intro db k c h
    simpa [run_log] using h
  | cons hd tl ih =>
    intro db k c h
    have h1 := log_request_find cfg db y m hd.1 hd.2.1 hd.2.2.1 hd.2.2.2
    rw [show month_requests db y m = k by simp [month_requests, h],
      show month_cost db y m = c by simp [month_cost, h]] at h1
    have h2 := ih _ _ _ h1
    rw [show run_log cfg y m db (hd :: tl) =
        run_log cfg y m (log_request cfg db y m hd.1 hd.2.1 hd.2.2.1 hd.2.2.2) tl
      from rfl]
    rw [h2]
    simp only [List.length_cons, Option.some.injEq, MonthRow.mk.injEq]
    refine ⟨trivial, trivial, by omega, by push_cast; ring⟩

theorem month_requests_ensure (db : Db) (y m : ℕ) :
    month_requests (ensure_month_exists db y m) y m = month_requests db y m := by
  cases hf : find_month db.monthly_usage y m with
  | none =>
    simp [month_requests, find_month_ensure_none hf, hf]
  | some r =>
    have hs : (find_month db.monthly_usage y m).isSome := by rw [hf]; rfl
    rw [ensure_of_isSome hs]

theorem month_cost_ensure (db : Db) (y m : ℕ) :
    month_cost (ensure_month_exists db y m) y m = month_cost db y m := by
  cases hf : find_month db.monthly_usage y m with
  | none =>
    simp [month_cost, find_month_ensure_none hf, hf]
  | some r =>
    have hs : (find_month db.monthly_usage y m).isSome := by rw [hf]; rfl
    rw [ensure_of_isSome hs]

theorem floor_percent (r mx : ℕ) :
    ⌊((r : ℚ) / (mx : ℚ)) * 100⌋ = ((100 * r) / mx : ℕ) := by
  have h0 : (0:ℚ) ≤ ((100 * r : ℕ) : ℚ) / (mx : ℚ) := by positivity
  rw [show ((r:ℚ) / (mx:ℚ)) * 100 = ((100 * r : ℕ) : ℚ) / (mx : ℚ) by
      push_cast; ring,
    ← Int.natCast_floor_eq_floor h0, Nat.floor_div_eq_div]

theorem usage_requests_eq (cfg : Config) (db : Db) (y m : ℕ) :
    (get_current_usage cfg db y m).2.requests = month_requests db y m := by
  show month_requests (ensure_month_exists db y m) y m = _
  exact month_requests_ensure db y m

theorem usage_cost_eq (cfg : Config) (db : Db) (y m : ℕ) :
    (get_current_usage cfg db y m).2.cost = round2 (month_cost db y m) := by
  show round2 (month_cost (ensure_month_exists db y m) y m) = _
  rw [month_cost_ensure]

theorem usage_percent_eq (cfg : Config) (db : Db) (y m : ℕ)
    (h : 0 < cfg.max_requests_per_month) :
    (get_current_usage cfg db y m).2.percent_used =
      (((100 * month_requests db y m) / cfg.max_requests_per_month : ℕ) : ℤ) := by
  show (if 0 < cfg.max_requests_per_month then
      ⌊((month_requests (ensure_month_exists db y m) y m : ℚ) /
          (cfg.max_requests_per_month : ℚ)) * 100⌋
    else 0) = _
  rw [if_pos h, month_requests_ensure, floor_percent]

theorem usage_status_eq (cfg : Config) (db : Db) (y m : ℕ) :
    (get_current_usage cfg db y m).2.status =
      (if (get_current_usage cfg db y m).2.percent_used ≥ 100 then "exceeded"
       else if (get_current_usage cfg db y m).2.percent_used ≥ 80 then "warning"
       else "ok") := rfl

theorem gate_of_exceeded (cfg : Config) (db : Db) (y m : ℕ)
    (h : (get_current_usage cfg db y m).2.status = "exceeded") :
    (can_make_request cfg db y m).2 =
      (false, budget_msg (get_current_usage cfg db y m).2.requests
        (get_current_usage cfg db y m).2.cost cfg.max_requests_per_month) := by
  rcases hE : get_current_usage cfg db y m with ⟨db', usage⟩
  rw [hE] at h
  unfold can_make_request
  rw [hE]
  simp only at h ⊢
  rw [if_pos h]

theorem gate_of_not_exceeded (cfg : Config) (db : Db) (y m : ℕ)
    (h : ¬ (get_current_usage cfg db y m).2.status = "exceeded") :
    (can_make_request cfg db y m).2 = (true, "") := by
  rcases hE : get_current_usage cfg db y m with ⟨db', usage⟩
  rw [hE] at h
  unfold can_make_request
  rw [hE]
  simp only at h ⊢
  rw [if_neg h]

theorem round2_natCast (n : ℕ) : round2 (n : ℚ) = n := by
  unfold round2
  rw [show ((n:ℚ) * 100) = ((n * 100 : ℕ) : ℚ) by push_cast; ring, round_natCast]
  push_cast
  field_simp

theorem round2_zero : round2 0 = 0 := by
  simpa using round2_natCast 0

theorem round2_nonneg {q : ℚ} (h : 0 ≤ q) : 0 ≤ round2 q := by
  unfold round2
  have h1 : (0:ℤ) ≤ round (q * 100) := by
    rw [round_eq]
    exact Int.floor_nonneg.mpr (by positivity)
  have h2 : (0:ℚ) ≤ ((round (q * 100) : ℤ) : ℚ) := by exact_mod_cast h1
  exact div_nonneg h2 (by norm_num)

theorem mem_history {db : Db} {r : MonthRow} (h : r ∈ db.monthly_usage) :
    (⟨month_str r.year r.month, r.requests, round2 r.cost⟩ : Summary) ∈
      get_monthly_history db db.monthly_usage.length := by
  unfold get_monthly_history
  rw [List.take_of_length_le (le_of_eq (List.length_insertionSort _ _))]
  exact List.mem_map_of_mem _ ((List.mem_insertionSort hist_le).mpr h)

end Sql

/-! ## Claim theorems -/

/-- C5: within a single period, every recorded attempt increments the request
counter by exactly 1 and the accumulated cost by exactly `cost_per_request`,
independently of the succeeded flag, so after a sequence of `n` calls from a
fresh period the counters read `n` and `n * cost_per_request`.  Stated for
`log_request` in `usage_tracker.py` (fold over an arbitrary call list with
arbitrary flags) and for `add_request` in `app.py` (iterate from the zero
state; `add_request` takes no flag at all). -/
theorem c5_record_attempt_counts (cfg : Sql.Config) (acfg : AppPy.Config)
    (y m : ℕ) (db : Sql.Db)
    (calls : List (String × String × Bool × Option String))
    (h : Sql.find_month db.monthly_usage y m = none) :
    Sql.month_requests (Sql.run_log cfg y m db calls) y m = calls.length ∧
    Sql.month_cost (Sql.run_log cfg y m db calls) y m =
      calls.length * cfg.cost_per_request ∧
    (∀ (d : Sql.Db) (e q : String) (n : Option String),
      (Sql.log_request cfg d y m e q true n).monthly_usage =
        (Sql.log_request cfg d y m e q false n).monthly_usage) ∧
    ∀ n : ℕ,
      (AppPy.add_request acfg)^[n] ⟨0, 0⟩ =
        AppPy.TrackerState.mk n ((n : ℚ) * acfg.cost_per_request) := by
  have hmain : Sql.find_month (Sql.run_log cfg y m db calls).monthly_usage y m =
      (match calls with
       | [] => none
       | _ :: _ => some ⟨y, m, calls.length,
           (calls.length : ℚ) * cfg.cost_per_request⟩) := by
    cases calls with
    | nil => simpa [Sql.run_log] using h
    | cons hd tl =>
      have h1 := Sql.log_request_find cfg db y m hd.1 hd.2.1 hd.2.2.1 hd.2.2.2
      rw [show Sql.month_requests db y m = 0 by simp [Sql.month_requests, h],
        show Sql.month_cost db y m = 0 by simp [Sql.month_cost, h]] at h1
      norm_num at h1
      have h2 := Sql.run_log_find cfg y m tl _ 1 cfg.cost_per_request h1
      rw [show Sql.run_log cfg y m db (hd :: tl) =
          Sql.run_log cfg y m
            (Sql.log_request cfg db y m hd.1 hd.2.1 hd.2.2.1 hd.2.2.2) tl
        from rfl, h2]
      simp only [List.length_cons, Option.some.injEq, Sql.MonthRow.mk.injEq]
      refine ⟨trivial, trivial, by omega, by push_cast; ring⟩
  refine ⟨?_, ?_, ?_, ?_⟩
  · cases calls with
    | nil => simp [Sql.month_requests, hmain]
    | cons hd tl => simp [Sql.month_requests, hmain]
  · cases calls with
    | nil => simp [Sql.month_cost, hmain]
    | cons hd tl => simp [Sql.month_cost, hmain]
  · intro d e q n
    rfl
  · intro n
    induction n with
    | zero => simp
    | succ k ih =>
      rw [Function.iterate_succ_apply', ih]
      unfold AppPy.add_request
      simp only [AppPy.TrackerState.mk.injEq]
      refine ⟨trivial, by push_cast; ring⟩

/-- Witness for C5 at a concrete input: two recorded attempts (one with the
succeeded flag true, one false) in a fresh period give a request counter of 2
and an accumulated cost of 2 * cost_per_request. -/
theorem c5_record_attempt_counts_witness :
    Sql.find_month Sql.emptyDb.monthly_usage 2026 1 = none ∧
    Sql.month_requests
      (Sql.run_log ⟨20000, 180, 1⟩ 2026 1 Sql.emptyDb
        [("nearbysearch", "restaurant", true, none),
         ("nearbysearch", "cafe", false, some "empty page")]) 2026 1 = 2 ∧
    (AppPy.add_request ⟨20000, 180, 1⟩)^[3] ⟨0, 0⟩ =
      AppPy.TrackerState.mk 3 ((3 : ℚ) * 1) := by
  have h := c5_record_attempt_counts ⟨20000, 180, 1⟩ ⟨20000, 180, 1⟩ 2026 1
    Sql.emptyDb
    [("nearbysearch", "restaurant", true, none),
     ("nearbysearch", "cafe", false, some "empty page")] rfl
  exact ⟨rfl, by simpa using h.1, by simpa using h.2.2.2 3⟩

/-- C6: `log_failed_request` appends exactly one `request_log` row, with
status "blocked" and cost 0, and leaves the `monthly_usage` table — hence
the request and cost counters of every period — unchanged. -/
theorem c6_blocked_leaves_counters (db : Sql.Db) (reason : String) :
    (Sql.log_failed_request db reason).monthly_usage = db.monthly_usage ∧
    (Sql.log_failed_request db reason).request_log =
      db.request_log ++
        [⟨some "blocked", none, 0, "blocked", some reason⟩] ∧
    ∀ y m : ℕ,
      Sql.month_requests (Sql.log_failed_request db reason) y m =
        Sql.month_requests db y m ∧
      Sql.month_cost (Sql.log_failed_request db reason) y m =
        Sql.month_cost db y m :=
  ⟨rfl, rfl, fun _ _ => ⟨rfl, rfl⟩⟩

/-- C9: saving the tracker state and reloading it under the same wall-clock
month key (a process restart with no period change) reproduces the exact
request and cost counters. -/
theorem c9_save_load_roundtrip (s : AppPy.TrackerState) (month_key : String) :
    (AppPy.load_usage (some (Except.ok (AppPy.save_usage s month_key)))
      month_key).1 = s := by
  simp [AppPy.load_usage, AppPy.save_usage]

/-- C10: the `requests_remaining` and `cost_remaining` fields reported by
`get_current_usage` are non-negative for every database state, including
over-budget states, because both are clamped with `max(0, ...)` (and
`cost_remaining` is then rounded, which preserves the sign). -/
theorem c10_remaining_nonneg (cfg : Sql.Config) (db : Sql.Db) (y m : ℕ) :
    0 ≤ (Sql.get_current_usage cfg db y m).2.requests_remaining ∧
    0 ≤ (Sql.get_current_usage cfg db y m).2.cost_remaining := by
  constructor
  · show (0:ℤ) ≤ max 0 _
    exact le_max_left _ _
  · show (0:ℚ) ≤ Sql.round2 (max 0 _)
    exact Sql.round2_nonneg (le_max_left _ _)

/-- C1: the claim is that both gate checks return allowed = true exactly when
requestCount < maxRequestsPerPeriod AND accumulatedCost < maxCostPerPeriod.
This holds for the JSON-file tracker in `app.py` (first conjunct, proved for
every state).  The SQLite tracker in `usage_tracker.py`, however, derives the
gate from `percent_used`, which is computed from the request counter alone:
at the state with 0 requests and an accumulated cost of 200 against a cost
limit of 180 (cost limit exceeded, second conjunct), its `can_make_request`
still returns `(True, "")` (third conjunct) — the module docstring calls
`max_cost_per_month` a hard limit, so the code, not the claim, is wrong. -/
theorem c1_gate_check (cfg : AppPy.Config) (s : AppPy.TrackerState) :
    (AppPy.can_make_request cfg s = true ↔
      (s.requests_this_month < cfg.max_requests_per_month ∧
       s.cost_this_month < cfg.max_cost_per_month)) ∧
    (180 : ℚ) ≤ 200 ∧
    (Sql.can_make_request ⟨20000, 180, 9/1000⟩
        ⟨[⟨2026, 1, 0, 200⟩], []⟩ 2026 1).2 = (true, "") := by
  refine ⟨?_, by norm_num, ?_⟩
  · simp [AppPy.can_make_request]
  · have hp := Sql.usage_percent_eq ⟨20000, 180, 9/1000⟩
      ⟨[⟨2026, 1, 0, 200⟩], []⟩ 2026 1 (by norm_num)
    rw [show Sql.month_requests ⟨[⟨2026, 1, 0, 200⟩], []⟩ 2026 1 = 0 from rfl]
      at hp
    norm_num at hp
    have hst := Sql.usage_status_eq ⟨20000, 180, 9/1000⟩
      ⟨[⟨2026, 1, 0, 200⟩], []⟩ 2026 1
    rw [hp] at hst
    norm_num at hst
    exact Sql.gate_of_not_exceeded _ _ 2026 1 (by rw [hst]; decide)

/-- Counterexample for C2: at 0 requests out of 100 and an accumulated cost
of 90 out of 180, the claimed formula max(0/100, 90/180) * 100 evaluates to
50, but the `percent_used` field computed by `get_current_usage` in
`usage_tracker.py` is 0 — it is derived from the request counter alone and
ignores the cost entirely. -/
theorem c2_percent_counterexample :
    (Sql.get_current_usage ⟨100, 180, 9/1000⟩
        ⟨[⟨2026, 1, 0, 90⟩], []⟩ 2026 1).2.percent_used = 0 ∧
    max ((((0 : ℕ) : ℚ) / 100) * 100) (((90 : ℚ) / 180) * 100) = 50 ∧
    (0 : ℤ) ≠ 50 := by
  refine ⟨?_, by norm_num, by norm_num⟩
  have hp := Sql.usage_percent_eq ⟨100, 180, 9/1000⟩
    ⟨[⟨2026, 1, 0, 90⟩], []⟩ 2026 1 (by norm_num)
  rw [show Sql.month_requests ⟨[⟨2026, 1, 0, 90⟩], []⟩ 2026 1 = 0 from rfl] at hp
  norm_num at hp
  exact hp

/-- C2 as amended: with both limits positive, `get_usage_percentage` in
`app.py` does equal max(requestCount/maxRequests, cost/maxCost) * 100, may
exceed 100, and equals 50 at requestCount = 50, maxRequests = 100, cost = 0;
the `percent_used` field of `get_current_usage` in `usage_tracker.py`
instead equals the integer truncation of (requestCount/maxRequests) * 100 —
the request share only, the cost share never enters — which also evaluates
to 50 at that particular instance. -/
theorem c2_percent_amended (cfg : AppPy.Config) (scfg : Sql.Config)
    (s : AppPy.TrackerState) (db : Sql.Db) (y m : ℕ)
    (h1 : 0 < cfg.max_requests_per_month) (h2 : 0 < cfg.max_cost_per_month)
    (h3 : 0 < scfg.max_requests_per_month) :
    AppPy.get_usage_percentage cfg s =
      max (((s.requests_this_month : ℚ) / (cfg.max_requests_per_month : ℚ)) * 100)
          ((s.cost_this_month / cfg.max_cost_per_month) * 100) ∧
    (Sql.get_current_usage scfg db y m).2.percent_used =
      (((100 * Sql.month_requests db y m) / scfg.max_requests_per_month : ℕ) : ℤ) ∧
    AppPy.get_usage_percentage ⟨100, 180, 9/1000⟩ ⟨50, 0⟩ = 50 ∧
    (Sql.get_current_usage ⟨100, 180, 9/1000⟩
        ⟨[⟨2026, 1, 50, 0⟩], []⟩ 2026 1).2.percent_used = 50 ∧
    (100 : ℚ) < AppPy.get_usage_percentage ⟨100, 180, 9/1000⟩ ⟨150, 0⟩ := by
  refine ⟨?_, Sql.usage_percent_eq scfg db y m h3, ?_, ?_, ?_⟩
  · unfold AppPy.get_usage_percentage
    rw [if_pos h1, if_pos h2]
  · unfold AppPy.get_usage_percentage
    norm_num
  · have hp := Sql.usage_percent_eq ⟨100, 180, 9/1000⟩
      ⟨[⟨2026, 1, 50, 0⟩], []⟩ 2026 1 (by norm_num)
    rw [show Sql.month_requests ⟨[⟨2026, 1, 50, 0⟩], []⟩ 2026 1 = 50 from rfl]
      at hp
    norm_num at hp
    exact hp
  · unfold AppPy.get_usage_percentage
    norm_num

/-- Witness for C2 as amended, at the concrete configuration 100 requests /
180 cost and the state 50 requests, cost 30: both positivity hypotheses hold
and the app.py percentage evaluates to the stated maximum. -/
theorem c2_percent_amended_witness :
    (0 < 100) ∧ ((0 : ℚ) < 180) ∧
    AppPy.get_usage_percentage ⟨100, 180, 9/1000⟩ ⟨50, 30⟩ =
      max ((((50 : ℕ) : ℚ) / (100 : ℚ)) * 100) (((30 : ℚ) / 180) * 100) := by
  refine ⟨by norm_num, by norm_num, ?_⟩
  have h := c2_percent_amended ⟨100, 180, 9/1000⟩ ⟨100, 180, 9/1000⟩
    ⟨50, 30⟩ ⟨[], []⟩ 2026 1 (by norm_num) (by norm_num) (by norm_num)
  exact h.1

/-- C3: when the persisted period differs from the current wall-clock period,
the new period starts at zero and the old data is kept.  In `app.py`,
`load_usage` on a stored month different from the current month key leaves
the counters at zero (the file itself is not rewritten by loading).  In
`usage_tracker.py`, the first read in a not-yet-seen period reports zero
requests and zero cost, the pre-existing row of the prior period is still in
the table afterwards, and its summary (period string, request count, rounded
cost) is returned by `get_monthly_history`. -/
theorem c3_period_rollover (d : AppPy.StoredUsage) (now : String)
    (cfg : Sql.Config) (db : Sql.Db) (y m : ℕ) (r₀ : Sql.MonthRow)
    (hm : now ≠ d.month)
    (hnew : Sql.find_month db.monthly_usage y m = none)
    (hold : r₀ ∈ db.monthly_usage) :
    (AppPy.load_usage (some (Except.ok d)) now).1 = ⟨0, 0⟩ ∧
    (Sql.get_current_usage cfg db y m).2.requests = 0 ∧
    (Sql.get_current_usage cfg db y m).2.cost = 0 ∧
    r₀ ∈ (Sql.get_current_usage cfg db y m).1.monthly_usage ∧
    (⟨Sql.month_str r₀.year r₀.month, r₀.requests, Sql.round2 r₀.cost⟩ :
        Sql.Summary) ∈
      Sql.get_monthly_history (Sql.get_current_usage cfg db y m).1
        (Sql.get_current_usage cfg db y m).1.monthly_usage.length := by
  have hmem : r₀ ∈ (Sql.get_current_usage cfg db y m).1.monthly_usage := by
    show r₀ ∈ (Sql.ensure_month_exists db y m).monthly_usage
    rw [Sql.ensure_of_none hnew]
    exact List.mem_append_left _ hold
  refine ⟨?_, ?_, ?_, hmem, Sql.mem_history hmem⟩
  · simp [AppPy.load_usage, hm]
  · rw [Sql.usage_requests_eq]
    simp [Sql.month_requests, hnew]
  · rw [Sql.usage_cost_eq]
    simp only [Sql.month_cost, hnew]
    exact Sql.round2_zero

/-- Witness for C3 at a concrete input: the stored month "2025-12" differs
from the current key "2026-01"; a database holding only the December 2025
row (7 requests, cost 3) has no row for January 2026, so the rollover
conclusion applies and in particular the December summary is in the
history. -/
theorem c3_period_rollover_witness :
    ("2026-01" : String) ≠ "2025-12" ∧
    ((AppPy.load_usage (some (Except.ok ⟨"2025-12", 7, 3⟩)) "2026-01").1 =
        ⟨0, 0⟩ ∧
      (Sql.get_current_usage ⟨20000, 180, 1⟩ ⟨[⟨2025, 12, 7, 3⟩], []⟩
          2026 1).2.requests = 0 ∧
      (Sql.get_current_usage ⟨20000, 180, 1⟩ ⟨[⟨2025, 12, 7, 3⟩], []⟩
          2026 1).2.cost = 0 ∧
      (⟨2025, 12, 7, 3⟩ : Sql.MonthRow) ∈
        (Sql.get_current_usage ⟨20000, 180, 1⟩ ⟨[⟨2025, 12, 7, 3⟩], []⟩
          2026 1).1.monthly_usage ∧
      (⟨Sql.month_str 2025 12, 7, Sql.round2 3⟩ : Sql.Summary) ∈
        Sql.get_monthly_history
          (Sql.get_current_usage ⟨20000, 180, 1⟩ ⟨[⟨2025, 12, 7, 3⟩], []⟩
            2026 1).1
          (Sql.get_current_usage ⟨20000, 180, 1⟩ ⟨[⟨2025, 12, 7, 3⟩], []⟩
            2026 1).1.monthly_usage.length) := by
  refine ⟨by decide, ?_⟩
  exact c3_period_rollover ⟨"2025-12", 7, 3⟩ "2026-01" ⟨20000, 180, 1⟩
    ⟨[⟨2025, 12, 7, 3⟩], []⟩ 2026 1 ⟨2025, 12, 7, 3⟩ (by decide) rfl
    (by simp)

namespace Sql

theorem unique_map_keys {rows : List MonthRow} (f : MonthRow → MonthRow)
    (hf : ∀ r, (f r).year = r.year ∧ (f r).month = r.month)
    (h : rows.Pairwise fun a b => ¬(a.year = b.year ∧ a.month = b.month)) :
    (rows.map f).Pairwise fun a b => ¬(a.year = b.year ∧ a.month = b.month) := by
  rw [List.pairwise_map]
  refine h.imp ?_
  intro a b hab
  rw [(hf a).1, (hf a).2, (hf b).1, (hf b).2]
  exact hab

theorem unique_ensure {db : Db} {y m : ℕ} (h : UniqueMonths db) :
    UniqueMonths (ensure_month_exists db y m) := by
  unfold UniqueMonths at h ⊢
  by_cases hf : (find_month db.monthly_usage y m).isSome
  · rw [ensure_of_isSome hf]
    exact h
  · have hn : find_month db.monthly_usage y m = none :=
      Option.not_isSome_iff_eq_none.mp hf
    rw [ensure_of_none hn, List.pairwise_append]
    refine ⟨h, by simp, ?_⟩
    intro a ha b hb
    have hpa := List.find?_eq_none.mp hn a ha
    simp only [List.mem_singleton] at hb
    subst hb
    simp only [Bool.and_eq_true, beq_iff_eq] at hpa
    simpa using hpa

theorem unique_log {cfg : Config} {db : Db} {y m : ℕ} {e q : String}
    {s : Bool} {n : Option String} (h : UniqueMonths db) :
    UniqueMonths (log_request cfg db y m e q s n) := by
  have h1 := unique_ensure (y := y) (m := m) h
  unfold UniqueMonths at h1 ⊢
  exact unique_map_keys _
    (fun r => by unfold bump_row; split <;> simp) h1

theorem unique_reset {db : Db} {y m : ℕ} (h : UniqueMonths db) :
    UniqueMonths (reset_month db y m) := by
  unfold UniqueMonths at h ⊢
  exact unique_map_keys _ (fun r => by split <;> simp) h

end Sql

/-- C8: every database reachable from a fresh `_init_db` store through the
mutating operations of `usage_tracker.py` has at most one `monthly_usage`
row per (year, month) value — the model-level reading of the
`UNIQUE(year, month)` constraint together with `INSERT OR IGNORE` — and the
first access to a not-yet-seen period creates that period's row with
requests = 0 and cost = 0.0 (the schema defaults), carrying nothing over. -/
theorem c8_one_row_per_period (db : Sql.Db) (hdb : Sql.Reachable db) :
    Sql.UniqueMonths db ∧
    ∀ y m : ℕ, Sql.find_month db.monthly_usage y m = none →
      Sql.find_month (Sql.ensure_month_exists db y m).monthly_usage y m =
        some ⟨y, m, 0, 0⟩ := by
  refine ⟨?_, fun y m hn => Sql.find_month_ensure_none hn⟩
  induction hdb with
  | init => simp [Sql.UniqueMonths, Sql.emptyDb]
  | ensure db y m _ ih => exact Sql.unique_ensure ih
  | log cfg db y m e q s n _ ih => exact Sql.unique_log ih
  | blocked db reason _ ih => exact ih
  | reset db y m _ ih => exact Sql.unique_reset ih

/-- Witness for C8: the database obtained from a fresh store by one recorded
attempt in January 2026, one blocked request, and one gate-induced row
creation for February 2026 is reachable, so it has unique period rows; and
creating the unseen period March 2026 yields the zero row concretely. -/
theorem c8_one_row_per_period_witness :
    Sql.UniqueMonths
      (Sql.ensure_month_exists
        (Sql.log_failed_request
          (Sql.log_request ⟨20000, 180, 1⟩ Sql.emptyDb 2026 1
            "nearbysearch" "restaurant" true none)
          "budget exceeded")
        2026 2) ∧
    Sql.find_month
      (Sql.ensure_month_exists
        (Sql.ensure_month_exists
          (Sql.log_failed_request
            (Sql.log_request ⟨20000, 180, 1⟩ Sql.emptyDb 2026 1
              "nearbysearch" "restaurant" true none)
            "budget exceeded")
          2026 2)
        2026 3).monthly_usage 2026 3 = some ⟨2026, 3, 0, 0⟩ := by
  have hreach : Sql.Reachable
      (Sql.ensure_month_exists
        (Sql.log_failed_request
          (Sql.log_request ⟨20000, 180, 1⟩ Sql.emptyDb 2026 1
            "nearbysearch" "restaurant" true none)
          "budget exceeded")
        2026 2) :=
    Sql.Reachable.ensure _ 2026 2
      (Sql.Reachable.blocked _ _
        (Sql.Reachable.log _ _ 2026 1 _ _ _ _ Sql.Reachable.init))
  have h := c8_one_row_per_period _ hreach
  refine ⟨h.1, h.2 2026 3 ?_⟩
  rfl

namespace Sql

theorem data_append_assoc (a b c : String) :
    (a ++ b ++ c).data = a.data ++ (b.data ++ c.data) := by
  simp [String.data_append]

theorem budget_msg_has_requests (r : ℕ) (c : ℚ) (maxR : ℕ) :
    (toString r ++ " requests").data <:+: (budget_msg r c maxR).data := by
  refine ⟨("❌ API Budget Exceeded\n\nYou\x27ve used ").data,
    ((" (" ++ (toString c ++ " USD)")) ++
      (" out of " ++ (toString maxR ++ " allowed")) ++
      ".\n\nPlease wait until next month or upgrade your plan.").data, ?_⟩
  unfold budget_msg
  simp [String.data_append, List.append_assoc]

theorem budget_msg_has_allowed (r : ℕ) (c : ℚ) (maxR : ℕ) :
    (toString maxR ++ " allowed").data <:+: (budget_msg r c maxR).data := by
  refine ⟨("❌ API Budget Exceeded\n\nYou\x27ve used " ++
      (toString r ++ " requests") ++ (" (" ++ (toString c ++ " USD)")) ++
      " out of ").data,
    (".\n\nPlease wait until next month or upgrade your plan.").data, ?_⟩
  unfold budget_msg
  simp [String.data_append, List.append_assoc]

theorem status_of_gate_false {cfg : Config} {db : Db} {y m : ℕ}
    (h : (can_make_request cfg db y m).2.1 = false) :
    (get_current_usage cfg db y m).2.status = "exceeded" := by
  by_contra hne
  rw [gate_of_not_exceeded _ _ _ _ hne] at h
  simp at h

theorem run_log_fresh_requests (cfg : Config) (y m : ℕ) (db : Db)
    (calls : List (String × String × Bool × Option String))
    (h : find_month db.monthly_usage y m = none) :
    month_requests (run_log cfg y m db calls) y m = calls.length := by
  cases calls with
  | nil => simp [run_log, month_requests, h]
  | cons hd tl =>
    have h1 := log_request_find cfg db y m hd.1 hd.2.1 hd.2.2.1 hd.2.2.2
    rw [show month_requests db y m = 0 by simp [month_requests, h],
      show month_cost db y m = 0 by simp [month_cost, h]] at h1
    norm_num at h1
    have h2 := run_log_find cfg y m tl _ 1 cfg.cost_per_request h1
    rw [show run_log cfg y m db (hd :: tl) =
        run_log cfg y m (log_request cfg db y m hd.1 hd.2.1 hd.2.2.1 hd.2.2.2) tl
      from rfl]
    simp [month_requests, h2]
    omega

end Sql

set_option maxRecDepth 20000 in
/-- Counterexample for C4: configure a request limit of 5 and a cost limit of
180, with the January 2026 row at 5 requests and cost 200 — both limits are
hit (in particular accumulatedCost 200 >= maxCostPerPeriod 180), and the gate
returns allowed = false; but the returned reason never names the cost limit:
neither the string "180" (the cost limit value) nor the word "cost" occurs in
it.  The reason text only ever speaks of requests out of the request limit. -/
theorem c4_reason_counterexample :
    ((Sql.can_make_request ⟨5, 180, 9/1000⟩
        ⟨[⟨2026, 1, 5, 200⟩], []⟩ 2026 1).2.1 = false) ∧
    (180 : ℚ) ≤ 200 ∧
    ¬ ((toString (180 : ℚ)).data <:+:
        (Sql.can_make_request ⟨5, 180, 9/1000⟩
          ⟨[⟨2026, 1, 5, 200⟩], []⟩ 2026 1).2.2.data) ∧
    ¬ (("cost").data <:+:
        (Sql.can_make_request ⟨5, 180, 9/1000⟩
          ⟨[⟨2026, 1, 5, 200⟩], []⟩ 2026 1).2.2.data) := by
  have hp := Sql.usage_percent_eq ⟨5, 180, 9/1000⟩
    ⟨[⟨2026, 1, 5, 200⟩], []⟩ 2026 1 (by norm_num)
  rw [show Sql.month_requests ⟨[⟨2026, 1, 5, 200⟩], []⟩ 2026 1 = 5 from rfl]
    at hp
  norm_num at hp
  have hst := Sql.usage_status_eq ⟨5, 180, 9/1000⟩
    ⟨[⟨2026, 1, 5, 200⟩], []⟩ 2026 1
  rw [hp] at hst
  norm_num at hst
  have hg := Sql.gate_of_exceeded _ _ _ _ hst
  have hr : (Sql.get_current_usage ⟨5, 180, 9/1000⟩
      ⟨[⟨2026, 1, 5, 200⟩], []⟩ 2026 1).2.requests = 5 := by
    rw [Sql.usage_requests_eq]
    rfl
  have hc : (Sql.get_current_usage ⟨5, 180, 9/1000⟩
      ⟨[⟨2026, 1, 5, 200⟩], []⟩ 2026 1).2.cost = 200 := by
    rw [Sql.usage_cost_eq,
      show Sql.month_cost ⟨[⟨2026, 1, 5, 200⟩], []⟩ 2026 1 = (200 : ℚ)
        from rfl,
      show (200 : ℚ) = ((200 : ℕ) : ℚ) by norm_num, Sql.round2_natCast]
  rw [hr, hc] at hg
  refine ⟨by rw [hg], by norm_num, ?_, ?_⟩
  · rw [hg]
    decide
  · rw [hg]
    decide

/-- C4 as amended: in `usage_tracker.py`, whenever the gate returns
allowed = false, the reason is the fixed budget message, which includes the
current request count ("N requests"), the current (rounded) cost, and the
request-count limit ("M allowed") — it names the request-count limit
regardless of which limit is conceptually over, and the cost limit value
never appears (see the counterexample); moreover after a number of recorded
attempts equal to `max_requests_per_month` in a fresh period, a subsequent
gate check returns false with that reason.  (`app.py`'s `can_make_request`
returns only a boolean; there is no reason string there at all.) -/
theorem c4_reason_amended (cfg : Sql.Config) (db : Sql.Db) (y m : ℕ)
    (h : 0 < cfg.max_requests_per_month) :
    ((Sql.can_make_request cfg db y m).2.1 = false →
      (Sql.can_make_request cfg db y m).2.2 =
        Sql.budget_msg (Sql.month_requests db y m)
          (Sql.round2 (Sql.month_cost db y m)) cfg.max_requests_per_month ∧
      (toString (Sql.month_requests db y m) ++ " requests").data <:+:
        (Sql.can_make_request cfg db y m).2.2.data ∧
      (toString cfg.max_requests_per_month ++ " allowed").data <:+:
        (Sql.can_make_request cfg db y m).2.2.data) ∧
    ∀ calls : List (String × String × Bool × Option String),
      Sql.find_month db.monthly_usage y m = none →
      calls.length = cfg.max_requests_per_month →
      ((Sql.can_make_request cfg (Sql.run_log cfg y m db calls) y m).2.1 =
          false ∧
        (toString cfg.max_requests_per_month ++ " allowed").data <:+:
          (Sql.can_make_request cfg (Sql.run_log cfg y m db calls) y
            m).2.2.data) := by
  constructor
  · intro hfalse
    have hst := Sql.status_of_gate_false hfalse
    have hg := Sql.gate_of_exceeded _ _ _ _ hst
    have h2 : (Sql.can_make_request cfg db y m).2.2 =
        Sql.budget_msg (Sql.month_requests db y m)
          (Sql.round2 (Sql.month_cost db y m)) cfg.max_requests_per_month := by
      rw [hg, ← Sql.usage_requests_eq cfg db y m, ← Sql.usage_cost_eq cfg db y m]
    rw [h2]
    exact ⟨rfl, Sql.budget_msg_has_requests _ _ _,
      Sql.budget_msg_has_allowed _ _ _⟩
  · intro calls hn hlen
    have hreq := Sql.run_log_fresh_requests cfg y m db calls hn
    rw [hlen] at hreq
    have hp := Sql.usage_percent_eq cfg (Sql.run_log cfg y m db calls) y m h
    rw [hreq, Nat.mul_div_assoc 100 (dvd_refl cfg.max_requests_per_month),
      Nat.div_self h, Nat.mul_one] at hp
    have hst := Sql.usage_status_eq cfg (Sql.run_log cfg y m db calls) y m
    rw [hp] at hst
    norm_num at hst
    have hg := Sql.gate_of_exceeded _ _ _ _ hst
    constructor
    · rw [hg]
    · have h2 : (Sql.can_make_request cfg (Sql.run_log cfg y m db calls) y
          m).2.2 =
          Sql.budget_msg
            (Sql.get_current_usage cfg (Sql.run_log cfg y m db calls) y
              m).2.requests
            (Sql.get_current_usage cfg (Sql.run_log cfg y m db calls) y
              m).2.cost cfg.max_requests_per_month := by
        rw [hg]
      rw [h2]
      exact Sql.budget_msg_has_allowed _ _ _

/-- Witness for C4 as amended: with a request limit of 3, three recorded
attempts starting from a fresh store make the gate return false, with a
reason mentioning "3 allowed". -/
theorem c4_reason_amended_witness :
    (0 < 3) ∧
    ((Sql.can_make_request ⟨3, 180, 1⟩
        (Sql.run_log ⟨3, 180, 1⟩ 2026 1 Sql.emptyDb
          [("nearbysearch", "restaurant", true, none),
           ("nearbysearch", "cafe", true, none),
           ("nearbysearch", "bar", false, none)]) 2026 1).2.1 = false ∧
      (toString (3 : ℕ) ++ " allowed").data <:+:
        (Sql.can_make_request ⟨3, 180, 1⟩
          (Sql.run_log ⟨3, 180, 1⟩ 2026 1 Sql.emptyDb
            [("nearbysearch", "restaurant", true, none),
             ("nearbysearch", "cafe", true, none),
             ("nearbysearch", "bar", false, none)]) 2026 1).2.2.data) := by
  refine ⟨by norm_num, ?_⟩
  exact (c4_reason_amended ⟨3, 180, 1⟩ Sql.emptyDb 2026 1 (by norm_num)).2
    [("nearbysearch", "restaurant", true, none),
     ("nearbysearch", "cafe", true, none),
     ("nearbysearch", "bar", false, none)] rfl rfl

/-- Counterexample for C7: `usage_tracker.py` contains no exception handling,
so a database error raised while reading the store propagates out of
`can_make_request` — the gate check does crash on a persistence read
failure, contradicting the claim that it never does in either tracker. -/
theorem c7_gate_crash_counterexample :
    Sql.can_make_request_conn ⟨20000, 180, 9/1000⟩
        (Except.error "sqlite3.DatabaseError: file is not a database")
        2026 1 =
      Except.error "sqlite3.DatabaseError: file is not a database" ∧
    (Sql.can_make_request_conn ⟨20000, 180, 9/1000⟩
        (Except.error "sqlite3.DatabaseError: file is not a database")
        2026 1).toOption = none :=
  ⟨rfl, rfl⟩

/-- C7 as amended: in `app.py` a read failure during load is caught — the
counters fall back to zero for the current period, the failure is logged,
and the gate check evaluates normally on the fallback state.  In
`usage_tracker.py` a missing row likewise yields zero counters, but a raised
database error is not caught and propagates out of `can_make_request`. -/
theorem c7_read_failure_amended (e now : String) (acfg : AppPy.Config)
    (cfg : Sql.Config) (db : Sql.Db) (y m : ℕ)
    (hn : Sql.find_month db.monthly_usage y m = none) :
    AppPy.load_usage (some (Except.error e)) now =
      (⟨0, 0⟩, ["Error loading usage: " ++ e]) ∧
    (AppPy.can_make_request acfg ⟨0, 0⟩ = true ↔
      (0 < acfg.max_requests_per_month ∧ 0 < acfg.max_cost_per_month)) ∧
    (Sql.get_current_usage cfg db y m).2.requests = 0 ∧
    (Sql.get_current_usage cfg db y m).2.cost = 0 ∧
    Sql.can_make_request_conn cfg (Except.error e) y m = Except.error e := by
  refine ⟨rfl, ?_, ?_, ?_, rfl⟩
  · simp [AppPy.can_make_request]
  · rw [Sql.usage_requests_eq]
    simp [Sql.month_requests, hn]
  · rw [Sql.usage_cost_eq]
    simp only [Sql.month_cost, hn]
    exact Sql.round2_zero

/-- Witness for C7 as amended, at a fresh empty database (no row for January
2026) and a concrete decode-error string. -/
theorem c7_read_failure_amended_witness :
    Sql.find_month Sql.emptyDb.monthly_usage 2026 1 = none ∧
    (AppPy.load_usage (some (Except.error "json decode error")) "2026-01" =
        (⟨0, 0⟩, ["Error loading usage: " ++ "json decode error"]) ∧
      (AppPy.can_make_request ⟨20000, 180, 9/1000⟩ ⟨0, 0⟩ = true ↔
        (0 < (20000 : ℕ) ∧ (0 : ℚ) < 180)) ∧
      (Sql.get_current_usage ⟨20000, 180, 9/1000⟩ Sql.emptyDb
          2026 1).2.requests = 0 ∧
      (Sql.get_current_usage ⟨20000, 180, 9/1000⟩ Sql.emptyDb
          2026 1).2.cost = 0 ∧
      Sql.can_make_request_conn ⟨20000, 180, 9/1000⟩
          (Except.error "json decode error") 2026 1 =
        Except.error "json decode error") :=
  ⟨rfl, c7_read_failure_amended "json decode error" "2026-01"
    ⟨20000, 180, 9/1000⟩ ⟨20000, 180, 9/1000⟩ Sql.emptyDb 2026 1 rfl⟩
